import Mathlib

/-!
Shallow embedding of the gesture-classification core of the repository
(`gesture_detector.py`): the per-finger extension test
(`_is_finger_extended`, lines 150-198), the rule cascade
(`_classify_gesture`, lines 97-148) and the cooldown gate inside
`detect_gesture` (lines 84-95), together with theorems checking the
natural-language specification against them.

Conventions of the embedding:
* landmark coordinates are exact rationals (the source works with Python
  floats; the algorithm is modelled over exact arithmetic);
* the source compares `np.linalg.norm` values, i.e. square roots of sums
  of squares; every such comparison is embedded as the equivalent
  comparison of squares (strict monotonicity of the square root on
  nonnegative reals).  The equivalence with the literal square-root
  formulation over ℝ is proved (`extTest_iff_extSpec`), so nothing is
  lost in the translation;
* a Python `IndexError` raised by indexing into the landmark list is
  modelled by `Option`: `none` means the call raised.
-/

namespace EduGesture

/-- One hand landmark, mirroring the `[landmark.x, landmark.y, landmark.z]`
rows collected in `detect_gesture` (lines 76-79). -/
structure Pt where
  x : ℚ
  y : ℚ
  z : ℚ
deriving DecidableEq, Repr

/-- Squared planar (x, y only) distance between two landmarks; the source
compares `np.linalg.norm (a[:2] - b[:2])`, the square root of this. -/
def sqDist (a b : Pt) : ℚ := (a.x - b.x) ^ 2 + (a.y - b.y) ^ 2

/-- The fixed finger lookup of `_is_finger_extended` (lines 153-169):
for each known fingertip index, the triple
(tip, interphalangeal joint, metacarpophalangeal joint); any other index
falls to the defensive `return False` branch. -/
def jointTable : ℕ → Option (Fin 21 × Fin 21 × Fin 21)
  | 4 => some (4, 3, 2)
  | 8 => some (8, 7, 5)
  | 12 => some (12, 11, 9)
  | 16 => some (16, 15, 13)
  | 20 => some (20, 19, 17)
  | _ => none

/-- Geometry of `_is_finger_extended` (lines 171-198) on the four points it
reads.  `distance_criterion` is `tip_to_wrist > ip_to_wrist * 0.9` on
squared norms (`0.9 ^ 2 = 81/100`).  `direction_criterion` asks that the
dot product of the normalized planar `wrist→mcp` and `mcp→tip` vectors
exceed `0.3`; a zero-length vector is left un-normalized (lines 186-189),
which makes the dot product `0` and the criterion false, so on squares the
criterion reads: both vectors nonzero, raw dot product positive, and
`100 · dot² > 9 · ‖u‖² · ‖v‖²`. -/
def extTest (tip ip mcp wrist : Pt) : Bool :=
  let ux := mcp.x - wrist.x
  let uy := mcp.y - wrist.y
  let vx := tip.x - mcp.x
  let vy := tip.y - mcp.y
  let d := ux * vx + uy * vy
  let distCrit := decide (sqDist ip wrist * (81 / 100) < sqDist tip wrist)
  let dirCrit := decide (0 < ux ^ 2 + uy ^ 2) && decide (0 < vx ^ 2 + vy ^ 2)
    && decide (0 < d)
    && decide (9 * ((ux ^ 2 + uy ^ 2) * (vx ^ 2 + vy ^ 2)) < 100 * d ^ 2)
  distCrit && dirCrit

/-- `_is_finger_extended` (lines 150-198) on a well-formed 21-point set:
look up the finger's joints, unknown tip indices yield `false`. -/
def isFingerExtended (lm : Fin 21 → Pt) (fingerTipIdx : ℕ) : Bool :=
  match jointTable fingerTipIdx with
  | some (tip, ip, mcp) => extTest (lm tip) (lm ip) (lm mcp) (lm 0)
  | none => false

/-- The closed set of gesture labels produced by `_classify_gesture`
(the `None` outcome is represented by `Option Label`). -/
inductive Label
  | right
  | left
  | twoFingers
  | ok
  | palm
deriving DecidableEq, Repr

/-- Rule cascade of `_classify_gesture` (lines 117-148), on the points and
extension booleans it reads.  `direction[0] > 0.5` after the guarded
normalization (lines 118-121) becomes `0 < dx ∧ dx² + dy² < 4·dx²`
(when the vector is zero it is left un-normalized and `direction[0] = 0`,
satisfying neither side, which the squared form also rejects);
`direction[0] < -0.5` likewise with `dx < 0`.  The nested OK test
(lines 138-141) is flattened into one guard: when
`middle ∧ ring ∧ pinky` holds but the thumb-index distance check fails,
the source falls through to the palm rule exactly as the flat cascade
does.  `thumb_index_dist < 0.08` is squared to `sqDist < 64/10000`. -/
def classifyCore (thumbTip indexTip wrist : Pt)
    (thumbE indexE middleE ringE pinkyE : Bool) : Option Label × ℚ :=
  let dx := indexTip.x - wrist.x
  let dy := indexTip.y - wrist.y
  if indexE && !middleE && !ringE && !pinkyE
      && decide (0 < dx) && decide (dx ^ 2 + dy ^ 2 < 4 * dx ^ 2) then
    (some .right, 85 / 100)
  else if indexE && !middleE && !ringE && !pinkyE
      && decide (dx < 0) && decide (dx ^ 2 + dy ^ 2 < 4 * dx ^ 2) then
    (some .left, 85 / 100)
  else if indexE && middleE && !ringE && !pinkyE then
    (some .twoFingers, 9 / 10)
  else if middleE && ringE && pinkyE
      && decide (sqDist thumbTip indexTip < 64 / 10000) then
    (some .ok, 85 / 100)
  else if thumbE && indexE && middleE && ringE && pinkyE then
    (some .palm, 9 / 10)
  else
    (none, 0)

/-- `_classify_gesture` (lines 97-148) on a well-formed 21-point set. -/
def classifyGesture (lm : Fin 21 → Pt) : Option Label × ℚ :=
  classifyCore (lm 4) (lm 8) (lm 0)
    (isFingerExtended lm 4) (isFingerExtended lm 8) (isFingerExtended lm 12)
    (isFingerExtended lm 16) (isFingerExtended lm 20)

/-- `_is_finger_extended` with the landmark list taken as a raw Python
list: every `landmarks[i]` is a fallible access, `none` modelling a raised
`IndexError`.  The joint lookup itself (lines 153-169) involves no
indexing, so an unknown tip still returns `False` without touching the
list. -/
def isFingerExtendedChecked (l : List Pt) (fingerTipIdx : ℕ) :
    Option Bool :=
  match jointTable fingerTipIdx with
  | some (tip, ip, mcp) => do
    let tipP ← l[(tip : ℕ)]?
    let ipP ← l[(ip : ℕ)]?
    let mcpP ← l[(mcp : ℕ)]?
    let wristP ← l[(0 : ℕ)]?
    pure (extTest tipP ipP mcpP wristP)
  | none => pure false

/-- `_classify_gesture` with the landmark list taken as a raw Python list,
reading the points in source order (lines 103-115); `none` models a raised
`IndexError`.  The three tips extracted on lines 105-107 are unused later
in the source but their (fallible) reads are kept. -/
def classifyChecked (l : List Pt) : Option (Option Label × ℚ) := do
  let thumbTip ← l[(4 : ℕ)]?
  let indexTip ← l[(8 : ℕ)]?
  let _middleTip ← l[(12 : ℕ)]?
  let _ringTip ← l[(16 : ℕ)]?
  let _pinkyTip ← l[(20 : ℕ)]?
  let wrist ← l[(0 : ℕ)]?
  let thumbE ← isFingerExtendedChecked l 4
  let indexE ← isFingerExtendedChecked l 8
  let middleE ← isFingerExtendedChecked l 12
  let ringE ← isFingerExtendedChecked l 16
  let pinkyE ← isFingerExtendedChecked l 20
  pure (classifyCore thumbTip indexTip wrist thumbE indexE middleE ringE pinkyE)

/-- Restriction of a list of at least 21 landmarks to its first 21
points, as a total function. -/
def truncate21 (l : List Pt) (h : 21 ≤ l.length) : Fin 21 → Pt :=
  fun i => l.get ⟨i.1, lt_of_lt_of_le i.2 h⟩

/-- Mutable cooldown state of `GestureDetector` (lines 21-22):
`self.last_gesture` and `self.gesture_timestamp`. -/
structure CooldownState where
  last_gesture : Option Label
  gesture_timestamp : ℚ
deriving DecidableEq, Repr

/-- `self.gesture_cooldown = 0.8` seconds (line 23). -/
def gesture_cooldown : ℚ := 8 / 10

/-- State set up by `__init__` (lines 21-22): `last_gesture = None`,
`gesture_timestamp = 0`. -/
def initState : CooldownState := ⟨none, 0⟩

/-- The cooldown gate of `detect_gesture` (lines 84-95), applied once the
raw classification `raw` of the current frame is available: returns the
emitted `(gesture, confidence)` and the updated state.  If
`current_time - self.gesture_timestamp < self.gesture_cooldown` the frame
is suppressed with the state untouched (lines 86-87); otherwise a truthy
gesture updates the state and is returned (lines 89-93), while a `None`
gesture falls through to `return None, None, 0` (line 95) leaving the
state untouched. -/
def cooldownGate (s : CooldownState) (current_time : ℚ)
    (raw : Option Label × ℚ) : (Option Label × ℚ) × CooldownState :=
  if current_time - s.gesture_timestamp < gesture_cooldown then
    ((none, 0), s)
  else
    match raw with
    | (some g, c) => ((some g, c), ⟨some g, current_time⟩)
    | (none, _) => ((none, 0), s)

/-- Fold of the cooldown gate over a sequence of frames, each given as
(frame time, raw classification): the state reached after processing all
of them. -/
def runGate (s : CooldownState) (frames : List (ℚ × (Option Label × ℚ))) :
    CooldownState :=
  frames.foldl (fun st f => (cooldownGate st f.1 f.2).2) s

/-- A concrete hand used as evaluation input: wrist at (1/2, 1), all five
fingers pointing up, thumb tip and index tip only 1/100 apart. -/
def okHandList : List Pt :=
  [⟨1/2, 1, 0⟩, ⟨0, 0, 0⟩, ⟨38/100, 7/10, 0⟩, ⟨38/100, 1/2, 0⟩,
   ⟨2/5, 31/100, 0⟩,
   ⟨42/100, 7/10, 0⟩, ⟨0, 0, 0⟩, ⟨42/100, 1/2, 0⟩, ⟨2/5, 3/10, 0⟩,
   ⟨1/2, 7/10, 0⟩, ⟨0, 0, 0⟩, ⟨1/2, 1/2, 0⟩, ⟨1/2, 3/10, 0⟩,
   ⟨58/100, 7/10, 0⟩, ⟨0, 0, 0⟩, ⟨58/100, 1/2, 0⟩, ⟨58/100, 3/10, 0⟩,
   ⟨66/100, 7/10, 0⟩, ⟨0, 0, 0⟩, ⟨66/100, 1/2, 0⟩, ⟨66/100, 3/10, 0⟩]

/-- The concrete hand `okHandList` as a total 21-point set. -/
def okHand : Fin 21 → Pt := fun i => okHandList.getD i ⟨0, 0, 0⟩

/-- The same hand as `okHand` with every depth coordinate shifted by 7. -/
def zHand : Fin 21 → Pt := fun i => ⟨(okHand i).x, (okHand i).y, (okHand i).z + 7⟩

end EduGesture

-- ============================================================
-- Cooldown-gate lemmas and claim theorems
-- ============================================================

namespace EduGesture

/-- Frames whose time is within the cooldown window of the stored
timestamp are suppressed without touching the state. -/
lemma cooldownGate_suppress (s : CooldownState) (t : ℚ)
    (raw : Option Label × ℚ)
    (h : t - s.gesture_timestamp < gesture_cooldown) :
    cooldownGate s t raw = ((none, 0), s) := by
  simp [cooldownGate, h]

/-- Frames at or past the cooldown window with a truthy raw gesture emit
it and stamp the state with the frame time. -/
lemma cooldownGate_emit (s : CooldownState) (t c : ℚ) (g : Label)
    (h : ¬ t - s.gesture_timestamp < gesture_cooldown) :
    cooldownGate s t (some g, c) = ((some g, c), ⟨some g, t⟩) := by
  simp [cooldownGate, h]

/-- A run of frames that all fall inside the cooldown window of the
current state leaves the state untouched. -/
lemma runGate_frozen (frames : List (ℚ × (Option Label × ℚ)))
    (s : CooldownState)
    (h : ∀ f ∈ frames, f.1 - s.gesture_timestamp < gesture_cooldown) :
    runGate s frames = s := by
  induction frames with
  | nil => rfl
  | cons f fs ih =>
    have hf := h f (by simp)
    have hfs : ∀ x ∈ fs, x.1 - s.gesture_timestamp < gesture_cooldown :=
      fun x hx => h x (by simp [hx])
    simp only [runGate, List.foldl_cons]
    rw [cooldownGate_suppress s f.1 f.2 hf]
    exact ih hfs

/-- C2: for two frames with non-`None` raw classifications at times
`t1 < t2` with `t2 - t1` below the cooldown, and any frames strictly in
between, the gate emits at most one of the two; moreover the
suppression decision for a non-`None` raw classification never depends on
which label (or confidence) was detected. -/
theorem cooldown_at_most_one_emission (s : CooldownState) (t1 t2 c1 c2 : ℚ)
    (g1 g2 : Label) (mid : List (ℚ × (Option Label × ℚ)))
    (h12 : t1 < t2) (hwin : t2 - t1 < gesture_cooldown)
    (hmid : ∀ f ∈ mid, t1 < f.1 ∧ f.1 < t2) :
    (¬ ((cooldownGate s t1 (some g1, c1)).1.1 ≠ none ∧
        (cooldownGate (runGate (cooldownGate s t1 (some g1, c1)).2 mid) t2
          (some g2, c2)).1.1 ≠ none)) ∧
    ∀ (s1 : CooldownState) (t c c1 : ℚ) (g g1 : Label),
      ((cooldownGate s1 t (some g, c)).1.1 = none ↔
       (cooldownGate s1 t (some g1, c1)).1.1 = none) := by
  constructor
  · rintro ⟨h1, h2⟩
    by_cases hcd : t1 - s.gesture_timestamp < gesture_cooldown
    · exact h1 (by simp [cooldownGate_suppress s t1 _ hcd])
    · have he := cooldownGate_emit s t1 c1 g1 hcd
      rw [he] at h2
      have hfrozen : runGate (⟨some g1, t1⟩ : CooldownState) mid
          = (⟨some g1, t1⟩ : CooldownState) := by
        refine runGate_frozen mid _ (fun f hf => ?_)
        have := hmid f hf
        simp only []
        linarith
      rw [hfrozen] at h2
      have hsup : t2 - (⟨some g1, t1⟩ : CooldownState).gesture_timestamp
          < gesture_cooldown := by simp only []; linarith
      exact h2 (by simp [cooldownGate_suppress _ t2 _ hsup])
  · intro s1 t c c1 g g1
    by_cases hcd : t - s1.gesture_timestamp < gesture_cooldown
    · simp [cooldownGate_suppress _ _ _ hcd]
    · simp [cooldownGate_emit _ _ _ _ hcd]

/-- C2 witness: with the fresh state, a palm at `t1 = 1` and an OK at
`t2 = 3/2` (no frames in between) lead to at most one emission, and the
suppression decision at any state and time is label-independent. -/
theorem cooldown_at_most_one_emission_witness :
    (¬ ((cooldownGate initState 1 (some Label.palm, 9/10)).1.1 ≠ none ∧
        (cooldownGate
          (runGate (cooldownGate initState 1 (some Label.palm, 9/10)).2 [])
          (3/2) (some Label.ok, 85/100)).1.1 ≠ none)) ∧
    ∀ (s1 : CooldownState) (t c c1 : ℚ) (g g1 : Label),
      ((cooldownGate s1 t (some g, c)).1.1 = none ↔
       (cooldownGate s1 t (some g1, c1)).1.1 = none) :=
  cooldown_at_most_one_emission initState 1 (3/2) (9/10) (85/100)
    Label.palm Label.ok [] (by norm_num) (by norm_num [gesture_cooldown])
    (by simp)

/-- C5: a frame with a non-`None` raw classification arriving within the
cooldown window is suppressed — the output is "no gesture" with
confidence 0 and the state (both `last_gesture` and `gesture_timestamp`)
is unchanged. -/
theorem cooldown_suppresses_frame (s : CooldownState) (t c : ℚ) (g : Label)
    (h : t - s.gesture_timestamp < gesture_cooldown) :
    cooldownGate s t (some g, c) = ((none, 0), s) :=
  cooldownGate_suppress s t (some g, c) h

/-- C5 witness: a palm with confidence 9/10 at time 1/2 against a state
stamped at time 0 is suppressed with the state unchanged. -/
theorem cooldown_suppresses_frame_witness :
    cooldownGate ⟨some Label.ok, 0⟩ (1/2) (some Label.palm, 9/10)
      = ((none, 0), ⟨some Label.ok, 0⟩) :=
  cooldown_suppresses_frame ⟨some Label.ok, 0⟩ (1/2) (9/10) Label.palm
    (by norm_num [gesture_cooldown])

/-- C8: when a frame at time `t` emits a gesture `g`, a later frame with
the same raw gesture at time `t + 0.8 + ε` (for any `ε > 0`, with no
intervening frame) emits it again, and the stored timestamp is updated to
the new frame time. -/
theorem cooldown_release (s : CooldownState) (t e c : ℚ) (g : Label)
    (hemit : gesture_cooldown ≤ t - s.gesture_timestamp) (he : 0 < e) :
    (cooldownGate s t (some g, c)).1 = (some g, c) ∧
    (cooldownGate (cooldownGate s t (some g, c)).2
        (t + gesture_cooldown + e) (some g, c)).1 = (some g, c) ∧
    (cooldownGate (cooldownGate s t (some g, c)).2
        (t + gesture_cooldown + e) (some g, c)).2.gesture_timestamp
      = t + gesture_cooldown + e := by
  have h1 := cooldownGate_emit s t c g (by linarith)
  rw [h1]
  have h2 : ¬ (t + gesture_cooldown + e
      - (⟨some g, t⟩ : CooldownState).gesture_timestamp < gesture_cooldown) := by
    simp only []
    linarith
  rw [cooldownGate_emit _ _ c g h2]
  exact ⟨rfl, rfl, rfl⟩

/-- C8 witness: an emission at time 1 followed by the same gesture at
time `1 + 0.8 + 0.1` emits both times and leaves the timestamp at 19/10. -/
theorem cooldown_release_witness :
    (cooldownGate initState 1 (some Label.palm, 9/10)).1
        = (some Label.palm, 9/10) ∧
    (cooldownGate (cooldownGate initState 1 (some Label.palm, 9/10)).2
        (1 + gesture_cooldown + 1/10) (some Label.palm, 9/10)).1
      = (some Label.palm, 9/10) ∧
    (cooldownGate (cooldownGate initState 1 (some Label.palm, 9/10)).2
        (1 + gesture_cooldown + 1/10) (some Label.palm, 9/10)).2.gesture_timestamp
      = 1 + gesture_cooldown + 1/10 :=
  cooldown_release initState 1 (1/10) (9/10) Label.palm
    (by norm_num [gesture_cooldown, initState]) (by norm_num)

/-- C10: the "never emitted" sentinel is the numeric timestamp 0 set in
`__init__`, and the first decision compares the frame time against it
directly: any non-`None` raw classification at a frame time below 0.8 is
suppressed even though nothing was ever emitted, exactly as if an
emission had happened at time 0. -/
theorem first_frame_suppressed_by_sentinel (t c : ℚ) (g : Label)
    (ht : t < 8/10) :
    initState.gesture_timestamp = 0 ∧
    cooldownGate initState t (some g, c) = ((none, 0), initState) := by
  refine ⟨rfl, cooldownGate_suppress _ _ _ ?_⟩
  simp only [initState, gesture_cooldown]
  linarith

/-- C10 witness: a palm classified at frame time 1/2 on the fresh state
is suppressed. -/
theorem first_frame_suppressed_by_sentinel_witness :
    initState.gesture_timestamp = 0 ∧
    cooldownGate initState (1/2) (some Label.palm, 9/10)
      = ((none, 0), initState) :=
  first_frame_suppressed_by_sentinel (1/2) (9/10) Label.palm (by norm_num)

end EduGesture

-- ============================================================
-- Malformed input: the raw-list classifier
-- ============================================================

namespace EduGesture

/-- On fewer than 21 landmarks, `_classify_gesture` reaches the access
`landmarks[20]` (line 107) and raises: the checked classifier returns
`none`. -/
lemma classifyChecked_short (l : List Pt) (h : l.length < 21) :
    classifyChecked l = none := by
  have h20 : l[(20 : ℕ)]? = none := by
    rw [List.getElem?_eq_none]
    omega
  unfold classifyChecked
  rcases h4 : l[(4 : ℕ)]? with _ | p4
  · simp [h4]
  rcases h8 : l[(8 : ℕ)]? with _ | p8
  · simp [h4, h8]
  rcases h12 : l[(12 : ℕ)]? with _ | p12
  · simp [h4, h8, h12]
  rcases h16 : l[(16 : ℕ)]? with _ | p16
  · simp [h4, h8, h12, h16]
  simp [h4, h8, h12, h16, h20]

/-- With at least 21 landmarks every access of the checked extension test
succeeds and it agrees with the total version on the first 21 points. -/
lemma isFingerExtendedChecked_of_length (l : List Pt) (h : 21 ≤ l.length)
    (t : ℕ) :
    isFingerExtendedChecked l t
      = some (isFingerExtended (truncate21 l h) t) := by
  unfold isFingerExtendedChecked isFingerExtended
  cases htab : jointTable t with
  | none => rfl
  | some tim =>
    obtain ⟨tip, ip, mcp⟩ := tim
    have htip : l[(tip : ℕ)]?
        = some (l.get ⟨tip.1, lt_of_lt_of_le tip.isLt h⟩) := by
      rw [List.getElem?_eq_getElem (lt_of_lt_of_le tip.isLt h)]
      simp
    have hip : l[(ip : ℕ)]?
        = some (l.get ⟨ip.1, lt_of_lt_of_le ip.isLt h⟩) := by
      rw [List.getElem?_eq_getElem (lt_of_lt_of_le ip.isLt h)]
      simp
    have hmcp : l[(mcp : ℕ)]?
        = some (l.get ⟨mcp.1, lt_of_lt_of_le mcp.isLt h⟩) := by
      rw [List.getElem?_eq_getElem (lt_of_lt_of_le mcp.isLt h)]
      simp
    have hw : l[(0 : ℕ)]?
        = some (l.get ⟨0, lt_of_lt_of_le (by norm_num) h⟩) := by
      rw [List.getElem?_eq_getElem (lt_of_lt_of_le (by norm_num) h)]
      simp
    dsimp only
    rw [htip, hip, hmcp, hw]
    rfl

/-- With at least 21 landmarks the checked classifier succeeds and agrees
with the total classifier on the first 21 points. -/
lemma classifyChecked_of_length (l : List Pt) (h : 21 ≤ l.length) :
    classifyChecked l = some (classifyGesture (truncate21 l h)) := by
  have a4 : l[(4 : ℕ)]? = some (l.get ⟨4, by omega⟩) := by
    rw [List.getElem?_eq_getElem (by omega)]
    simp
  have a8 : l[(8 : ℕ)]? = some (l.get ⟨8, by omega⟩) := by
    rw [List.getElem?_eq_getElem (by omega)]
    simp
  have a12 : l[(12 : ℕ)]? = some (l.get ⟨12, by omega⟩) := by
    rw [List.getElem?_eq_getElem (by omega)]
    simp
  have a16 : l[(16 : ℕ)]? = some (l.get ⟨16, by omega⟩) := by
    rw [List.getElem?_eq_getElem (by omega)]
    simp
  have a20 : l[(20 : ℕ)]? = some (l.get ⟨20, by omega⟩) := by
    rw [List.getElem?_eq_getElem (by omega)]
    simp
  have a0 : l[(0 : ℕ)]? = some (l.get ⟨0, by omega⟩) := by
    rw [List.getElem?_eq_getElem (by omega)]
    simp
  unfold classifyChecked
  rw [a4, a8, a12, a16, a20, a0]
  simp only [Option.bind_some, Option.some_bind,
    isFingerExtendedChecked_of_length l h]
  rfl

/-- C1 counterexample: a 20-point landmark input is not answered with
"no gesture": the classifier raises an index error (modelled by `none`)
instead of returning `(None, 0)`. -/
theorem malformed_input_not_refused :
    ¬ (classifyChecked (List.replicate 20 (⟨0, 0, 0⟩ : Pt))
        = some (none, 0)) := by
  intro hc
  rw [classifyChecked_short (List.replicate 20 (⟨0, 0, 0⟩ : Pt))
    (by simp)] at hc
  exact Option.noConfusion hc

/-- C1 amended: `_classify_gesture` performs no length validation.  An
input with fewer than 21 points makes the landmark indexing raise an
out-of-range error (modelled by `none`), it is not defensively mapped to
"no gesture"; an input with 21 or more points is classified normally
(from its first 21 points), whether or not its length is exactly 21. -/
theorem malformed_input_raises (l : List Pt) :
    (l.length < 21 → classifyChecked l = none) ∧
    (21 ≤ l.length → (classifyChecked l).isSome = true) := by
  constructor
  · exact fun h => classifyChecked_short l h
  · intro h
    rw [classifyChecked_of_length l h]
    rfl

/-- C1 amended, witness: a 20-point input raises, a 21-point input is
classified. -/
theorem malformed_input_raises_witness :
    classifyChecked (List.replicate 20 (⟨1, 1, 0⟩ : Pt)) = none ∧
    (classifyChecked okHandList).isSome = true :=
  ⟨(malformed_input_raises _).1 (by simp),
   (malformed_input_raises _).2 (by norm_num [okHandList])⟩

/-- The rule cascade only ever produces the six fixed
(label, confidence) outcomes. -/
lemma classifyCore_mem_outcomes (a b c : Pt) (tE iE mE rE pE : Bool) :
    classifyCore a b c tE iE mE rE pE ∈
      ([(some Label.right, 85/100), (some Label.left, 85/100),
        (some Label.twoFingers, 9/10), (some Label.ok, 85/100),
        (some Label.palm, 9/10), (none, 0)] : List (Option Label × ℚ)) := by
  unfold classifyCore
  dsimp only
  split
  · simp
  split
  · simp
  split
  · simp
  split
  · simp
  split
  · simp
  simp

/-- C6: on any 21-point landmark set the classifier succeeds (never
raises) and returns exactly one of the six defined outcomes: `Right` or
`Left` or `Ok` at confidence 0.85, `TwoFingers` or `Palm` at confidence
0.9, or no gesture at confidence 0. -/
theorem classify_total_and_closed (l : List Pt) (h : l.length = 21) :
    ∃ out, classifyChecked l = some out ∧
      out ∈ ([(some Label.right, 85/100), (some Label.left, 85/100),
              (some Label.twoFingers, 9/10), (some Label.ok, 85/100),
              (some Label.palm, 9/10), (none, 0)] : List (Option Label × ℚ)) := by
  have h21 : 21 ≤ l.length := le_of_eq h.symm
  refine ⟨classifyGesture (truncate21 l h21),
    classifyChecked_of_length l h21, ?_⟩
  unfold classifyGesture
  exact classifyCore_mem_outcomes _ _ _ _ _ _ _ _

/-- C6 witness: the concrete 21-point hand is classified into the closed
outcome set. -/
theorem classify_total_and_closed_witness :
    ∃ out, classifyChecked okHandList = some out ∧
      out ∈ ([(some Label.right, 85/100), (some Label.left, 85/100),
              (some Label.twoFingers, 9/10), (some Label.ok, 85/100),
              (some Label.palm, 9/10), (none, 0)] : List (Option Label × ℚ)) :=
  classify_total_and_closed okHandList (by norm_num [okHandList])

end EduGesture
-- ============================================================
-- Rule priority (OK before Palm) and depth invariance
-- ============================================================

namespace EduGesture

/-- C4: whenever middle, ring and pinky are all extended and the planar
thumb-tip/index-tip distance is below 0.08 (squared: below 64/10000), the
cascade answers `Ok` with confidence 0.85 — the earlier rules are
disabled by the extended middle and ring fingers, and the OK rule fires
before the palm rule is even inspected, so this holds in particular when
all five fingers are extended. -/
theorem ok_priority_over_palm (lm : Fin 21 → Pt)
    (hm : isFingerExtended lm 12 = true)
    (hr : isFingerExtended lm 16 = true)
    (hp : isFingerExtended lm 20 = true)
    (hd : sqDist (lm 4) (lm 8) < 64 / 10000) :
    classifyGesture lm = (some Label.ok, 85 / 100) := by
  unfold classifyGesture classifyCore
  dsimp only
  rw [hm, hr, hp]
  simp [hd]

/-- On the concrete hand the middle finger is extended. -/
lemma okHand_ext12 : isFingerExtended okHand 12 = true := by
  have e12 : okHand 12 = ⟨1/2, 3/10, 0⟩ := rfl
  have e11 : okHand 11 = ⟨1/2, 1/2, 0⟩ := rfl
  have e9 : okHand 9 = ⟨1/2, 7/10, 0⟩ := rfl
  have e0 : okHand 0 = ⟨1/2, 1, 0⟩ := rfl
  simp only [isFingerExtended, jointTable, e12, e11, e9, e0]
  norm_num [extTest, sqDist]

/-- On the concrete hand the ring finger is extended. -/
lemma okHand_ext16 : isFingerExtended okHand 16 = true := by
  have e16 : okHand 16 = ⟨58/100, 3/10, 0⟩ := rfl
  have e15 : okHand 15 = ⟨58/100, 1/2, 0⟩ := rfl
  have e13 : okHand 13 = ⟨58/100, 7/10, 0⟩ := rfl
  have e0 : okHand 0 = ⟨1/2, 1, 0⟩ := rfl
  simp only [isFingerExtended, jointTable, e16, e15, e13, e0]
  norm_num [extTest, sqDist]

/-- On the concrete hand the pinky is extended. -/
lemma okHand_ext20 : isFingerExtended okHand 20 = true := by
  have e20 : okHand 20 = ⟨66/100, 3/10, 0⟩ := rfl
  have e19 : okHand 19 = ⟨66/100, 1/2, 0⟩ := rfl
  have e17 : okHand 17 = ⟨66/100, 7/10, 0⟩ := rfl
  have e0 : okHand 0 = ⟨1/2, 1, 0⟩ := rfl
  simp only [isFingerExtended, jointTable, e20, e19, e17, e0]
  norm_num [extTest, sqDist]

/-- On the concrete hand the thumb is extended. -/
lemma okHand_ext4 : isFingerExtended okHand 4 = true := by
  have e4 : okHand 4 = ⟨2/5, 31/100, 0⟩ := rfl
  have e3 : okHand 3 = ⟨38/100, 1/2, 0⟩ := rfl
  have e2 : okHand 2 = ⟨38/100, 7/10, 0⟩ := rfl
  have e0 : okHand 0 = ⟨1/2, 1, 0⟩ := rfl
  simp only [isFingerExtended, jointTable, e4, e3, e2, e0]
  norm_num [extTest, sqDist]

/-- On the concrete hand the index finger is extended. -/
lemma okHand_ext8 : isFingerExtended okHand 8 = true := by
  have e8 : okHand 8 = ⟨2/5, 3/10, 0⟩ := rfl
  have e7 : okHand 7 = ⟨42/100, 1/2, 0⟩ := rfl
  have e5 : okHand 5 = ⟨42/100, 7/10, 0⟩ := rfl
  have e0 : okHand 0 = ⟨1/2, 1, 0⟩ := rfl
  simp only [isFingerExtended, jointTable, e8, e7, e5, e0]
  norm_num [extTest, sqDist]

/-- On the concrete hand the thumb tip and index tip are 1/100 apart. -/
lemma okHand_thumb_index_close :
    sqDist (okHand 4) (okHand 8) < 64 / 10000 := by
  have e4 : okHand 4 = ⟨2/5, 31/100, 0⟩ := rfl
  have e8 : okHand 8 = ⟨2/5, 3/10, 0⟩ := rfl
  rw [e4, e8]
  norm_num [sqDist]

/-- C4 witness: on the concrete hand every one of the five fingers is
extended (so the palm rule would also match) and the thumb and index tips
are close, yet the classifier answers `Ok`, not `Palm`. -/
theorem ok_priority_over_palm_witness :
    isFingerExtended okHand 4 = true ∧
    isFingerExtended okHand 8 = true ∧
    classifyGesture okHand = (some Label.ok, 85 / 100) :=
  ⟨okHand_ext4, okHand_ext8,
    ok_priority_over_palm okHand okHand_ext12 okHand_ext16 okHand_ext20
      okHand_thumb_index_close⟩

/-- The extension geometry reads only planar coordinates. -/
lemma extTest_planar (a a1 b b1 c c1 d d1 : Pt)
    (hax : a.x = a1.x) (hay : a.y = a1.y)
    (hbx : b.x = b1.x) (hby : b.y = b1.y)
    (hcx : c.x = c1.x) (hcy : c.y = c1.y)
    (hdx : d.x = d1.x) (hdy : d.y = d1.y) :
    extTest a b c d = extTest a1 b1 c1 d1 := by
  unfold extTest sqDist
  rw [hax, hay, hbx, hby, hcx, hcy, hdx, hdy]

/-- The finger-extension decision reads only planar coordinates. -/
lemma isFingerExtended_planar (lm lm1 : Fin 21 → Pt)
    (h : ∀ i, (lm i).x = (lm1 i).x ∧ (lm i).y = (lm1 i).y) (t : ℕ) :
    isFingerExtended lm t = isFingerExtended lm1 t := by
  unfold isFingerExtended
  cases htab : jointTable t with
  | none => rfl
  | some tim =>
    obtain ⟨tip, ip, mcp⟩ := tim
    dsimp only
    exact extTest_planar _ _ _ _ _ _ _ _ (h tip).1 (h tip).2 (h ip).1
      (h ip).2 (h mcp).1 (h mcp).2 (h 0).1 (h 0).2

/-- C9: two landmark sets agreeing on every x and y coordinate (but with
arbitrary depths) receive the identical (label, confidence) output, and
every finger-extension decision also agrees: classification is invariant
to the z coordinates. -/
theorem classification_depth_invariant (lm lm1 : Fin 21 → Pt)
    (h : ∀ i, (lm i).x = (lm1 i).x ∧ (lm i).y = (lm1 i).y) :
    classifyGesture lm = classifyGesture lm1 ∧
    ∀ t, isFingerExtended lm t = isFingerExtended lm1 t := by
  refine ⟨?_, fun t => isFingerExtended_planar lm lm1 h t⟩
  unfold classifyGesture classifyCore sqDist
  dsimp only
  rw [isFingerExtended_planar lm lm1 h 4, isFingerExtended_planar lm lm1 h 8,
    isFingerExtended_planar lm lm1 h 12, isFingerExtended_planar lm lm1 h 16,
    isFingerExtended_planar lm lm1 h 20,
    (h 4).1, (h 4).2, (h 8).1, (h 8).2, (h 0).1, (h 0).2]

/-- C9 witness: the concrete hand and its copy with every depth shifted
by 7 classify identically with all finger decisions equal. -/
theorem classification_depth_invariant_witness :
    classifyGesture okHand = classifyGesture zHand ∧
    ∀ t, isFingerExtended okHand t = isFingerExtended zHand t :=
  classification_depth_invariant okHand zHand (fun _ => ⟨rfl, rfl⟩)

end EduGesture
-- ============================================================
-- Monotonicity of the extension test in tip displacement
-- ============================================================

namespace EduGesture

/-- Scaling the second vector of the direction-criterion ratio by any
positive factor preserves the strict ratio inequality. -/
lemma ratio_scale (ux uy vx vy c : ℚ) (hc : 0 < c)
    (h : 9 * ((ux ^ 2 + uy ^ 2) * (vx ^ 2 + vy ^ 2))
      < 100 * (ux * vx + uy * vy) ^ 2) :
    9 * ((ux ^ 2 + uy ^ 2) * ((c * vx) ^ 2 + (c * vy) ^ 2))
      < 100 * (ux * (c * vx) + uy * (c * vy)) ^ 2 := by
  nlinarith [mul_pos (mul_pos hc hc) (sub_pos.mpr h)]

set_option maxHeartbeats 1000000 in
/-- Stretching the tip away from the base joint along the base→tip
direction (factor `1 + s`, `s > 0`) strictly increases its squared
distance to the wrist and preserves every criterion of the extension
geometry. -/
lemma extTest_stretch (tip ip mcp w : Pt) (s z1 : ℚ) (hs : 0 < s)
    (h : extTest tip ip mcp w = true) :
    sqDist tip w < sqDist ⟨tip.x + s * (tip.x - mcp.x),
        tip.y + s * (tip.y - mcp.y), z1⟩ w ∧
    extTest ⟨tip.x + s * (tip.x - mcp.x),
        tip.y + s * (tip.y - mcp.y), z1⟩ ip mcp w = true := by
  unfold extTest sqDist at h ⊢
  simp only [Bool.and_eq_true, decide_eq_true_eq] at h ⊢
  obtain ⟨hdist, ⟨⟨hqu, hqv⟩, hd⟩, hratio⟩ := h
  have h1s : (0 : ℚ) < 1 + s := by linarith
  have kx : tip.x + s * (tip.x - mcp.x) - mcp.x
      = (1 + s) * (tip.x - mcp.x) := by ring
  have ky : tip.y + s * (tip.y - mcp.y) - mcp.y
      = (1 + s) * (tip.y - mcp.y) := by ring
  have hgrow : (tip.x - w.x) ^ 2 + (tip.y - w.y) ^ 2 <
      (tip.x + s * (tip.x - mcp.x) - w.x) ^ 2 +
      (tip.y + s * (tip.y - mcp.y) - w.y) ^ 2 := by
    nlinarith [mul_pos hs hd, mul_pos hs hqv,
      mul_nonneg (mul_nonneg hs.le hs.le) hqv.le]
  refine ⟨hgrow, ?_, ⟨⟨hqu, ?_⟩, ?_⟩, ?_⟩
  · linarith
  · rw [kx, ky]
    nlinarith [mul_pos (mul_pos h1s h1s) hqv]
  · rw [kx, ky]
    nlinarith [mul_pos h1s hd]
  · rw [kx, ky]
    exact ratio_scale _ _ _ _ _ h1s hratio

/-- C7: for a finger judged extended, moving its tip strictly farther
from the wrist along the existing base-joint→tip direction (scaling that
direction by any `s > 0`, any new depth, all other landmarks fixed)
leaves it judged extended — the move indeed takes the tip strictly
farther from the wrist, and the extension test still returns `true`. -/
theorem finger_extension_monotone (lm : Fin 21 → Pt) (t : ℕ)
    (tip ip mcp : Fin 21) (s z1 : ℚ)
    (htab : jointTable t = some (tip, ip, mcp))
    (hext : isFingerExtended lm t = true) (hs : 0 < s) :
    sqDist (lm tip) (lm 0)
        < sqDist ⟨(lm tip).x + s * ((lm tip).x - (lm mcp).x),
                  (lm tip).y + s * ((lm tip).y - (lm mcp).y), z1⟩ (lm 0) ∧
    isFingerExtended (Function.update lm tip
        ⟨(lm tip).x + s * ((lm tip).x - (lm mcp).x),
         (lm tip).y + s * ((lm tip).y - (lm mcp).y), z1⟩) t = true := by
  have hne : ip ≠ tip ∧ mcp ≠ tip ∧ (0 : Fin 21) ≠ tip := by
    unfold jointTable at htab
    split at htab <;>
      first
        | (simp only [Option.some.injEq, Prod.mk.injEq] at htab
           obtain ⟨rfl, rfl, rfl⟩ := htab
           exact ⟨by decide, by decide, by decide⟩)
        | exact absurd htab (by simp)
  obtain ⟨hip, hmcp, h0⟩ := hne
  unfold isFingerExtended at hext ⊢
  rw [htab] at hext ⊢
  dsimp only at hext ⊢
  rw [Function.update_same, Function.update_noteq hip,
    Function.update_noteq hmcp, Function.update_noteq h0]
  exact extTest_stretch (lm tip) (lm ip) (lm mcp) (lm 0) s z1 hs hext

/-- C7 witness: stretching the extended middle finger of the concrete
hand by half its base→tip vector keeps it extended and moves the tip
strictly farther from the wrist. -/
theorem finger_extension_monotone_witness :
    sqDist (okHand 12) (okHand 0)
        < sqDist ⟨(okHand 12).x + (1/2) * ((okHand 12).x - (okHand 9).x),
                  (okHand 12).y + (1/2) * ((okHand 12).y - (okHand 9).y),
                  0⟩ (okHand 0) ∧
    isFingerExtended (Function.update okHand 12
        ⟨(okHand 12).x + (1/2) * ((okHand 12).x - (okHand 9).x),
         (okHand 12).y + (1/2) * ((okHand 12).y - (okHand 9).y), 0⟩)
      12 = true :=
  finger_extension_monotone okHand 12 12 11 9 (1/2) 0 rfl okHand_ext12
    (by norm_num)

end EduGesture
-- ============================================================
-- The extension test against the literal square-root specification
-- ============================================================

namespace EduGesture

open Classical in
/-- Modelled from the spec (§4.1, direction criterion): the dot product
of the normalized planar wrist→base vector `(ux, uy)` and the normalized
planar base→tip vector `(vx, vy)` exceeds 0.3, where a vector of zero
length is left un-normalized; normalization divides each component by
the Euclidean norm. -/
def dirSpec (ux uy vx vy : ℝ) : Prop :=
  (3 / 10 : ℝ) <
    (if 0 < Real.sqrt (ux ^ 2 + uy ^ 2)
       then ux / Real.sqrt (ux ^ 2 + uy ^ 2) else ux)
      * (if 0 < Real.sqrt (vx ^ 2 + vy ^ 2)
           then vx / Real.sqrt (vx ^ 2 + vy ^ 2) else vx)
    + (if 0 < Real.sqrt (ux ^ 2 + uy ^ 2)
         then uy / Real.sqrt (ux ^ 2 + uy ^ 2) else uy)
      * (if 0 < Real.sqrt (vx ^ 2 + vy ^ 2)
           then vy / Real.sqrt (vx ^ 2 + vy ^ 2) else vy)

/-- Modelled from the spec (§4.1): both finger-extension criteria stated
literally over ℝ — the planar Euclidean (square-root) distance from tip
to wrist exceeds 0.9 times the distance from the mid joint (ip) to the
wrist, and the normalized-vector dot product exceeds 0.3. -/
def extSpec (tip ip mcp wrist : Pt) : Prop :=
  ((9 / 10 : ℝ) * Real.sqrt ((sqDist ip wrist : ℚ) : ℝ)
      < Real.sqrt ((sqDist tip wrist : ℚ) : ℝ)) ∧
  dirSpec ((mcp.x - wrist.x : ℚ) : ℝ) ((mcp.y - wrist.y : ℚ) : ℝ)
    ((tip.x - mcp.x : ℚ) : ℝ) ((tip.y - mcp.y : ℚ) : ℝ)

/-- Squared planar distances are nonnegative. -/
lemma sqDist_nonneg (a b : Pt) : 0 ≤ sqDist a b := by
  unfold sqDist
  positivity

/-- Strictly comparing square roots of nonnegative reals is the same as
strictly comparing the radicands, with the 0.9 factor absorbed as 0.81. -/
lemma distCrit_iff (A B : ℝ) (hB : 0 ≤ B) :
    (9 / 10) * Real.sqrt B < Real.sqrt A ↔ B * (81 / 100) < A := by
  have h1 : (9 / 10 : ℝ) * Real.sqrt B = Real.sqrt (B * (81 / 100)) := by
    rw [Real.sqrt_mul hB, show Real.sqrt (81 / 100 : ℝ) = 9 / 10 by
      rw [show (81 / 100 : ℝ) = (9 / 10) ^ 2 by norm_num,
        Real.sqrt_sq (by norm_num)]]
    ring
  rw [h1, Real.sqrt_lt_sqrt_iff (by positivity)]

/-- The literal normalized-dot-product criterion is equivalent to its
square form: both vectors nonzero, positive raw dot product, and
`100·dot² > 9·‖u‖²·‖v‖²`. -/
lemma dirSpec_iff (ux uy vx vy : ℝ) :
    dirSpec ux uy vx vy ↔
      ((0 < ux ^ 2 + uy ^ 2 ∧ 0 < vx ^ 2 + vy ^ 2) ∧ 0 < ux * vx + uy * vy)
        ∧ 9 * ((ux ^ 2 + uy ^ 2) * (vx ^ 2 + vy ^ 2))
            < 100 * (ux * vx + uy * vy) ^ 2 := by
  unfold dirSpec
  by_cases hqu : 0 < ux ^ 2 + uy ^ 2
  · by_cases hqv : 0 < vx ^ 2 + vy ^ 2
    · have hsu : 0 < Real.sqrt (ux ^ 2 + uy ^ 2) := Real.sqrt_pos.mpr hqu
      have hsv : 0 < Real.sqrt (vx ^ 2 + vy ^ 2) := Real.sqrt_pos.mpr hqv
      have hsu2 : Real.sqrt (ux ^ 2 + uy ^ 2) ^ 2 = ux ^ 2 + uy ^ 2 :=
        Real.sq_sqrt hqu.le
      have hsv2 : Real.sqrt (vx ^ 2 + vy ^ 2) ^ 2 = vx ^ 2 + vy ^ 2 :=
        Real.sq_sqrt hqv.le
      simp only [if_pos hsu, if_pos hsv]
      have hdots : ux / Real.sqrt (ux ^ 2 + uy ^ 2)
            * (vx / Real.sqrt (vx ^ 2 + vy ^ 2))
          + uy / Real.sqrt (ux ^ 2 + uy ^ 2)
            * (vy / Real.sqrt (vx ^ 2 + vy ^ 2))
          = (ux * vx + uy * vy)
            / (Real.sqrt (ux ^ 2 + uy ^ 2) * Real.sqrt (vx ^ 2 + vy ^ 2)) := by
        field_simp
      rw [hdots, lt_div_iff₀ (by positivity)]
      constructor
      · intro h
        have hd : 0 < ux * vx + uy * vy := by nlinarith [mul_pos hsu hsv]
        refine ⟨⟨⟨hqu, hqv⟩, hd⟩, ?_⟩
        nlinarith [mul_pos hsu hsv]
      · rintro ⟨⟨⟨-, -⟩, hd⟩, hratio⟩
        nlinarith [mul_pos hsu hsv,
          mul_pos (mul_pos hsu hsv) (mul_pos hsu hsv)]
    · have hqv0 : vx ^ 2 + vy ^ 2 = 0 :=
        le_antisymm (not_lt.mp hqv) (by positivity)
      have hvx : vx = 0 := by nlinarith [sq_nonneg vx, sq_nonneg vy]
      have hvy : vy = 0 := by nlinarith [sq_nonneg vx, sq_nonneg vy]
      have hnot : ¬ (0 < Real.sqrt (vx ^ 2 + vy ^ 2)) := by
        rw [hqv0]
        simp
      simp only [if_neg hnot]
      constructor
      · intro h
        rw [hvx, hvy] at h
        simp only [mul_zero, add_zero] at h
        norm_num at h
      · rintro ⟨⟨⟨-, hqv2⟩, -⟩, -⟩
        exact absurd hqv2 hqv
  · have hqu0 : ux ^ 2 + uy ^ 2 = 0 :=
      le_antisymm (not_lt.mp hqu) (by positivity)
    have hux : ux = 0 := by nlinarith [sq_nonneg ux, sq_nonneg uy]
    have huy : uy = 0 := by nlinarith [sq_nonneg ux, sq_nonneg uy]
    have hnot : ¬ (0 < Real.sqrt (ux ^ 2 + uy ^ 2)) := by
      rw [hqu0]
      simp
    simp only [if_neg hnot]
    constructor
    · intro h
      rw [hux, huy] at h
      simp only [zero_mul, add_zero, zero_add] at h
      norm_num at h
    · rintro ⟨⟨⟨hqu2, -⟩, -⟩, -⟩
      exact absurd hqu2 hqu

/-- The squared-comparison geometry of the embedding decides exactly the
spec's literal square-root criteria. -/
lemma extTest_iff_extSpec (tip ip mcp wrist : Pt) :
    extTest tip ip mcp wrist = true ↔ extSpec tip ip mcp wrist := by
  unfold extTest extSpec
  simp only [Bool.and_eq_true, decide_eq_true_eq]
  rw [distCrit_iff _ _ (by exact_mod_cast sqDist_nonneg ip wrist),
    dirSpec_iff]
  rw [show ((81 : ℝ) / 100) = ((81 / 100 : ℚ) : ℝ) by norm_num]
  norm_cast

/-- C3: for every 21-point landmark set and every finger identifier the
extension test returns `true` exactly when the finger is in the fixed
five-finger lookup table and both of the spec's criteria hold — the
planar tip→wrist distance exceeds 0.9 times the mid-joint→wrist distance
and the normalized wrist→base and base→tip planar vectors (zero vectors
left un-normalized) have dot product above 0.3; in particular any finger
index outside the table yields "not extended". -/
theorem finger_extension_matches_spec (lm : Fin 21 → Pt) (t : ℕ) :
    isFingerExtended lm t = true ↔
      ∃ tim : Fin 21 × Fin 21 × Fin 21, jointTable t = some tim ∧
        extSpec (lm tim.1) (lm tim.2.1) (lm tim.2.2) (lm 0) := by
  unfold isFingerExtended
  cases htab : jointTable t with
  | none => simp
  | some tim =>
    obtain ⟨tp, ip, mcp⟩ := tim
    dsimp only
    simp only [Option.some.injEq]
    constructor
    · intro h
      exact ⟨(tp, ip, mcp), rfl, (extTest_iff_extSpec _ _ _ _).mp h⟩
    · rintro ⟨tim2, htim2, h⟩
      obtain rfl : tim2 = (tp, ip, mcp) := htim2.symm
      exact (extTest_iff_extSpec _ _ _ _).mpr h

end EduGesture
